import Mathlib

/-!
Shallow embedding of the pointer-identity disambiguation bridge found in
`windows/runner/flutter_window.cpp` / `flutter_window.h`.

The bridge intercepts Windows `WM_POINTER*` messages on two paths (the
top-level `FlutterWindow::MessageHandler` and the subclassed Flutter-view
procedure `FlutterViewSubclassProc`), classifies the originating device of
each pointer via dynamically resolved `user32.dll` entry points
(`GetPointerType`, `GetPointerPenInfo`), caches the per-identifier type in
`pointer_type_cache_` (a `std::map<UINT32, UINT32>`), and forwards one
`onPointerTypeDetected` method-channel message per pointer-down.

OS calls are modelled as oracles carried on each message: `typeResult` is
the outcome the OS would give for `GetPointerType(pointerId, ...)` on that
message (`none` = the call returns FALSE), and `penResult` likewise for
`GetPointerPenInfo` (`some p` = success with `penInfo.pressure = p`).
Diagnostic file logging is modelled as a list of abstract log entries; the
`WM_FONTCHANGE` font-reload side call in `MessageHandler` is not modelled
(it does not touch the pointer bridge or the pass-through structure).
-/

namespace Winote

/-- The five Windows pointer message kinds intercepted by the bridge
(`WM_POINTERDOWN`, `WM_POINTERUP`, `WM_POINTERUPDATE`, `WM_POINTERENTER`,
`WM_POINTERLEAVE`), plus `other` for every message the two `switch`
statements do not match. -/
inductive MsgKind where
  | down
  | up
  | update
  | enter
  | leave
  | other
  deriving DecidableEq, Repr

/-- One incoming window message together with the OS oracle answers the
dynamically loaded pointer API would give while handling it. -/
structure PtrMsg where
  kind : MsgKind
  wparam : Nat
  /-- Outcome of `GetPointerType(pointerId, &pointerType)` on this message:
  `some t` means the call returns TRUE and writes type `t`; `none` means it
  returns FALSE. -/
  typeResult : Option Nat
  /-- Outcome of `GetPointerPenInfo(pointerId, &penInfo)` on this message:
  `some p` means success with `penInfo.pressure = p`; `none` means failure. -/
  penResult : Option Nat
  deriving DecidableEq, Repr

/-- Pointer type constants from the source. -/
def PT_POINTER : Nat := 1

def PT_TOUCH : Nat := 2

def PT_PEN : Nat := 3

def PT_MOUSE : Nat := 4

/-- `GET_POINTERID_WPARAM(wParam) = LOWORD(wParam)`: the low 16 bits. -/
def GET_POINTERID_WPARAM (wparam : Nat) : Nat := wparam % 65536

/-- Which of the two optional `user32.dll` entry points resolved: models the
nullness of the global function pointers `g_GetPointerType` and
`g_GetPointerPenInfo` (`true` = non-null). -/
structure Caps where
  getPointerType : Bool
  getPointerPenInfo : Bool
  deriving DecidableEq, Repr

/-- `pointer_type_cache_ : std::map<UINT32, UINT32>`, modelled as an
association list from pointer identifier to cached pointer type. -/
abbrev Cache := List (Nat × Nat)

/-- `pointer_type_cache_[pointerId] = pointerType`: update the entry if the
key is present, otherwise add a new entry. -/
def cacheInsert : Cache → Nat → Nat → Cache
  | [], k, v => [(k, v)]
  | (k', v') :: rest, k, v =>
      if k' = k then (k, v) :: rest else (k', v') :: cacheInsert rest k v

/-- `pointer_type_cache_.erase(pointerId)`: remove any entry with the key. -/
def cacheErase (c : Cache) (k : Nat) : Cache :=
  c.filter (fun p => p.1 ≠ k)

/-- Whether the cache holds an entry for key `k`. -/
def cacheMem (c : Cache) (k : Nat) : Bool :=
  c.any (fun p => p.1 = k)

/-- The immutable classification value handed to the Event Forwarder:
the argument triple of a `SendPointerTypeToDart` call. -/
structure ClassificationEvent where
  pointerId : Nat
  pointerType : Nat
  pressure : Nat
  deriving DecidableEq, Repr

/-- Abstract diagnostic log entries (`LogToFile` calls relevant to the
bridge). -/
inductive LogEvent where
  /-- `"HandlePointerMessage: g_GetPointerType is null!"` -/
  | getPointerTypeNull
  /-- `"HandlePointerMessage: GetPointerType failed for pointer <id> ..."` -/
  | typeQueryFailed (pointerId : Nat)
  /-- `"HandlePointerMessage: Pointer <id> type: ... pressure: ..."` -/
  | pointerDownInfo (pointerId : Nat) (pointerType : Nat) (pressure : Nat)
  /-- `"SendPointerTypeToDart: pointer_channel_ is null!"` -/
  | channelNull
  /-- `"SendPointerTypeToDart: Sending pointer <id>, type <t>, ..."` -/
  | sendInfo (pointerId : Nat) (pointerType : Nat) (pressure : Nat)
  deriving DecidableEq, Repr

/-- `static_cast<int>` applied to a `UINT32` value. -/
def toInt32 (n : Nat) : Int :=
  if n % 4294967296 < 2147483648 then ((n % 4294967296 : Nat) : Int)
  else ((n % 4294967296 : Nat) : Int) - 4294967296

/-- One `InvokeMethod` call on the `winote/pointer_type` method channel. -/
structure ChannelMessage where
  method : String
  args : List (String × Int)
  deriving DecidableEq, Repr

/-- `FlutterWindow::SendPointerTypeToDart`. `channelReady` models whether
`pointer_channel_` is non-null. Returns the channel message actually
invoked (if any) and the log entries written. -/
def SendPointerTypeToDart (channelReady : Bool) (pointerId pointerType pressure : Nat) :
    Option ChannelMessage × List LogEvent :=
  if channelReady then
    (some { method := "onPointerTypeDetected",
            args := [("pointerId", toInt32 pointerId),
                     ("pointerType", toInt32 pointerType),
                     ("pressure", toInt32 pressure)] },
     [LogEvent.sendInfo pointerId pointerType pressure])
  else
    (none, [LogEvent.channelNull])

/-- The `pressure` local of `HandlePointerMessage`: initialized to 0 and
assigned from `penInfo.pressure` only when the resolved type is `PT_PEN`,
`g_GetPointerPenInfo` is non-null, and the pen-info query succeeds. -/
def penPressure (caps : Caps) (pointerType : Nat) (penResult : Option Nat) : Nat :=
  if pointerType = PT_PEN ∧ caps.getPointerPenInfo = true then
    match penResult with
    | some p => p
    | none => 0
  else 0

/-- The outcome of one call into the classifier: the new cache, the
classification handed to `SendPointerTypeToDart` (if that call was made),
the channel message it actually invoked, and the log entries written. -/
structure HandleResult where
  cache : Cache
  event : Option ClassificationEvent
  sent : Option ChannelMessage
  logs : List LogEvent
  deriving DecidableEq, Repr

/-- `FlutterWindow::HandlePointerMessage`, line for line:
bail out if `g_GetPointerType` is null; query the type for
`GET_POINTERID_WPARAM(wparam)`; on success cache it, compute pen pressure,
and on `WM_POINTERDOWN` only, log and call `SendPointerTypeToDart`; on
query failure just log. -/
def HandlePointerMessage (caps : Caps) (channelReady : Bool) (cache : Cache)
    (m : PtrMsg) : HandleResult :=
  if caps.getPointerType = false then
    { cache := cache, event := none, sent := none,
      logs := [LogEvent.getPointerTypeNull] }
  else
    match m.typeResult with
    | some pointerType =>
        let pointerId := GET_POINTERID_WPARAM m.wparam
        let cache2 := cacheInsert cache pointerId pointerType
        let pressure := penPressure caps pointerType m.penResult
        if m.kind = MsgKind.down then
          let s := SendPointerTypeToDart channelReady pointerId pointerType pressure
          { cache := cache2,
            event := some ⟨pointerId, pointerType, pressure⟩,
            sent := s.1,
            logs := LogEvent.pointerDownInfo pointerId pointerType pressure :: s.2 }
        else
          { cache := cache2, event := none, sent := none, logs := [] }
    | none =>
        { cache := cache, event := none, sent := none,
          logs := [LogEvent.typeQueryFailed (GET_POINTERID_WPARAM m.wparam)] }

/-- An empty classifier outcome: cache untouched, nothing classified,
nothing sent, nothing logged. -/
def noHandle (cache : Cache) : HandleResult :=
  { cache := cache, event := none, sent := none, logs := [] }

/-- The pointer-message part of `FlutterWindow::MessageHandler` (its first
`switch`): `WM_POINTERDOWN/UP/UPDATE/ENTER` go to `HandlePointerMessage`;
`WM_POINTERLEAVE` erases the cache entry for
`GET_POINTERID_WPARAM(wparam)`; other messages do not touch the bridge. -/
def topLevelStep (caps : Caps) (channelReady : Bool) (cache : Cache)
    (m : PtrMsg) : HandleResult :=
  match m.kind with
  | MsgKind.down | MsgKind.up | MsgKind.update | MsgKind.enter =>
      HandlePointerMessage caps channelReady cache m
  | MsgKind.leave => noHandle (cacheErase cache (GET_POINTERID_WPARAM m.wparam))
  | MsgKind.other => noHandle cache

/-- The downstream chain available to `FlutterWindow::MessageHandler` for
the current message: whether `flutter_controller_` is non-null, the result
`HandleTopLevelWindowProc` would give for this message (`none` = Flutter
declines), and the result `Win32Window::MessageHandler` would give. -/
structure TopChain where
  controllerPresent : Bool
  flutterResult : Option Int
  baseResult : Int
  deriving DecidableEq, Repr

/-- The full outcome of `FlutterWindow::MessageHandler` on one message:
the classifier side effects plus which downstream handlers ran and the
LRESULT returned. -/
structure TopLevelOutcome where
  handle : HandleResult
  calledFlutter : Bool
  calledBase : Bool
  result : Int
  deriving DecidableEq, Repr

/-- `FlutterWindow::MessageHandler`: first the pointer `switch`, then —
unconditionally — hand the message to
`flutter_controller_->HandleTopLevelWindowProc` when the controller
exists, returning its result if it produces one, and otherwise fall
through to `Win32Window::MessageHandler`. -/
def MessageHandler (chain : TopChain) (caps : Caps) (channelReady : Bool)
    (cache : Cache) (m : PtrMsg) : TopLevelOutcome :=
  let h := topLevelStep caps channelReady cache m
  if chain.controllerPresent then
    match chain.flutterResult with
    | some r =>
        { handle := h, calledFlutter := true, calledBase := false, result := r }
    | none =>
        { handle := h, calledFlutter := true, calledBase := true,
          result := chain.baseResult }
  else
    { handle := h, calledFlutter := false, calledBase := true,
      result := chain.baseResult }

/-- The downstream chain available to `FlutterViewSubclassProc`: whether
`g_original_flutter_view_proc` is non-null, the result `CallWindowProc` on
it would give for this message, and the result `DefWindowProc` would
give. -/
structure WndChain where
  originalProcPresent : Bool
  originalResult : Int
  defaultResult : Int
  deriving DecidableEq, Repr

/-- The full outcome of `FlutterViewSubclassProc` on one message. -/
structure SubclassOutcome where
  handle : HandleResult
  calledOriginal : Bool
  calledDefault : Bool
  result : Int
  deriving DecidableEq, Repr

/-- Whether the `switch` in `FlutterViewSubclassProc` matches the message
(all five `WM_POINTER*` kinds route to `ProcessPointerMessage`, including
`WM_POINTERLEAVE`). -/
def subclassIntercepts : MsgKind → Bool
  | MsgKind.down | MsgKind.up | MsgKind.update | MsgKind.enter
  | MsgKind.leave => true
  | MsgKind.other => false

/-- `FlutterViewSubclassProc`: for each of the five pointer kinds, when
`g_flutter_window` is non-null (`windowPresent`), call
`ProcessPointerMessage`, which is a direct wrapper around
`HandlePointerMessage`; then always call the original window procedure
when one was saved, else `DefWindowProc`. -/
def FlutterViewSubclassProc (chain : WndChain) (windowPresent : Bool)
    (caps : Caps) (channelReady : Bool) (cache : Cache) (m : PtrMsg) :
    SubclassOutcome :=
  let h :=
    if subclassIntercepts m.kind && windowPresent then
      HandlePointerMessage caps channelReady cache m
    else noHandle cache
  if chain.originalProcPresent then
    { handle := h, calledOriginal := true, calledDefault := false,
      result := chain.originalResult }
  else
    { handle := h, calledOriginal := false, calledDefault := true,
      result := chain.defaultResult }

/-- Accumulated observables of processing a message sequence through the
top-level path: final cache, all classifications handed to the forwarder,
and all channel messages actually invoked, in order. -/
structure RunResult where
  cache : Cache
  events : List ClassificationEvent
  sentMsgs : List ChannelMessage
  deriving DecidableEq, Repr

/-- Process a message sequence through the top-level path
(`FlutterWindow::MessageHandler`), threading the cache. -/
def runTopLevel (caps : Caps) (channelReady : Bool) (cache : Cache) :
    List PtrMsg → RunResult
  | [] => { cache := cache, events := [], sentMsgs := [] }
  | m :: ms =>
      let r := topLevelStep caps channelReady cache m
      let rest := runTopLevel caps channelReady r.cache ms
      { cache := rest.cache,
        events := r.event.toList ++ rest.events,
        sentMsgs := r.sent.toList ++ rest.sentMsgs }

/-- What `GetModuleHandleA("user32.dll")` and the two `GetProcAddress`
calls would yield if `InitializePointerApi` probed right now (`true` =
non-null). -/
structure ProbeEnv where
  user32 : Bool
  getPointerTypeAddr : Bool
  getPointerPenInfoAddr : Bool
  deriving DecidableEq, Repr

/-- The three relevant globals of the capability prober:
`g_pointer_api_initialized`, `g_GetPointerType`, `g_GetPointerPenInfo`
(the latter two as nullness flags). -/
structure ApiState where
  initialized : Bool
  getPointerType : Bool
  getPointerPenInfo : Bool
  deriving DecidableEq, Repr

/-- Static initialization of the globals: not yet initialized, both
function pointers null. -/
def initialApiState : ApiState :=
  { initialized := false, getPointerType := false, getPointerPenInfo := false }

/-- `InitializePointerApi`: return at once if already initialized;
otherwise mark initialized and, when the `user32.dll` handle is obtained,
assign both function pointers from `GetProcAddress` (a failed lookup
leaves the corresponding pointer null). -/
def InitializePointerApi (env : ProbeEnv) (s : ApiState) : ApiState :=
  if s.initialized then s
  else if env.user32 then
    { initialized := true,
      getPointerType := env.getPointerTypeAddr,
      getPointerPenInfo := env.getPointerPenInfoAddr }
  else
    { initialized := true,
      getPointerType := s.getPointerType,
      getPointerPenInfo := s.getPointerPenInfo }

/-- Repeated calls to `InitializePointerApi`, one per listed probe
environment. -/
def runProbes (s : ApiState) : List ProbeEnv → ApiState
  | [] => s
  | e :: es => runProbes (InitializePointerApi e s) es

/-! ### Basic lemmas about the cache operations -/

theorem cacheMem_cons (a b x : Nat) (rest : Cache) :
    cacheMem ((a, b) :: rest) x = (decide (a = x) || cacheMem rest x) := rfl

theorem cacheInsert_cons (k' v' k v : Nat) (rest : Cache) :
    cacheInsert ((k', v') :: rest) k v =
      if k' = k then (k, v) :: rest else (k', v') :: cacheInsert rest k v := rfl

theorem cacheErase_cons (k' v' k : Nat) (rest : Cache) :
    cacheErase ((k', v') :: rest) k =
      if k' = k then cacheErase rest k else (k', v') :: cacheErase rest k := by
  by_cases h : k' = k <;> simp [cacheErase, h]

theorem cacheMem_insert (c : Cache) (k v x : Nat) :
    cacheMem (cacheInsert c k v) x = if x = k then true else cacheMem c x := by
  induction c with
  | nil =>
      by_cases h : x = k
      · subst h; simp [cacheInsert, cacheMem]
      · simp [cacheInsert, cacheMem, h, Ne.symm h]
  | cons p rest ih =>
      obtain ⟨k', v'⟩ := p
      rw [cacheInsert_cons]
      by_cases hk : k' = k
      · subst hk
        rw [if_pos rfl, cacheMem_cons, cacheMem_cons]
        by_cases hx : x = k'
        · subst hx; simp
        · simp [hx, Ne.symm hx]
      · rw [if_neg hk, cacheMem_cons, cacheMem_cons, ih]
        by_cases hx : x = k
        · subst hx; simp
        · simp [hx]

theorem cacheMem_erase (c : Cache) (k x : Nat) :
    cacheMem (cacheErase c k) x = if x = k then false else cacheMem c x := by
  induction c with
  | nil => by_cases h : x = k <;> simp [cacheErase, cacheMem, h]
  | cons p rest ih =>
      obtain ⟨k', v'⟩ := p
      rw [cacheErase_cons]
      by_cases hk : k' = k
      · rw [if_pos hk, ih, cacheMem_cons]
        subst hk
        by_cases hx : x = k'
        · subst hx; simp
        · simp [hx, Ne.symm hx]
      · rw [if_neg hk, cacheMem_cons, cacheMem_cons, ih]
        by_cases hx : x = k
        · subst hx
          simp [hk]
        · simp [hx]

/-! ### Characterizations of one classifier call -/

theorem HandlePointerMessage_cache (caps : Caps) (chan : Bool) (cache : Cache)
    (m : PtrMsg) :
    (HandlePointerMessage caps chan cache m).cache =
      if caps.getPointerType = true then
        match m.typeResult with
        | some t => cacheInsert cache (GET_POINTERID_WPARAM m.wparam) t
        | none => cache
      else cache := by
  cases hg : caps.getPointerType
  · simp [HandlePointerMessage, hg]
  · cases ht : m.typeResult with
    | none => simp [HandlePointerMessage, hg, ht]
    | some t =>
        by_cases hk : m.kind = MsgKind.down <;>
          simp [HandlePointerMessage, hg, ht, hk]

theorem HandlePointerMessage_event (caps : Caps) (chan : Bool) (cache : Cache)
    (m : PtrMsg) :
    (HandlePointerMessage caps chan cache m).event =
      if caps.getPointerType = true ∧ m.kind = MsgKind.down then
        match m.typeResult with
        | some t =>
            some ⟨GET_POINTERID_WPARAM m.wparam, t, penPressure caps t m.penResult⟩
        | none => none
      else none := by
  cases hg : caps.getPointerType
  · simp [HandlePointerMessage, hg]
  · cases ht : m.typeResult with
    | none => simp [HandlePointerMessage, hg, ht]
    | some t =>
        by_cases hk : m.kind = MsgKind.down <;>
          simp [HandlePointerMessage, hg, ht, hk]

theorem HandlePointerMessage_sent (caps : Caps) (chan : Bool) (cache : Cache)
    (m : PtrMsg) :
    (HandlePointerMessage caps chan cache m).sent =
      if caps.getPointerType = true ∧ m.kind = MsgKind.down then
        match m.typeResult with
        | some t =>
            (SendPointerTypeToDart chan (GET_POINTERID_WPARAM m.wparam) t
              (penPressure caps t m.penResult)).1
        | none => none
      else none := by
  cases hg : caps.getPointerType
  · simp [HandlePointerMessage, hg]
  · cases ht : m.typeResult with
    | none => simp [HandlePointerMessage, hg, ht]
    | some t =>
        by_cases hk : m.kind = MsgKind.down <;>
          simp [HandlePointerMessage, hg, ht, hk]

/-! ### Characterizations of one top-level step -/

/-- The message kinds the top-level handler routes into
`HandlePointerMessage`. -/
def classifiedKind : MsgKind → Bool
  | MsgKind.down | MsgKind.up | MsgKind.update | MsgKind.enter => true
  | MsgKind.leave | MsgKind.other => false

/-- The message classifies identifier `x` with a successful device-type
query: a routed (non-leave, non-other) message for `x`, with the query
capability resolved and the query succeeding. -/
def classifiesId (caps : Caps) (x : Nat) (m : PtrMsg) : Bool :=
  caps.getPointerType && classifiedKind m.kind &&
    decide (GET_POINTERID_WPARAM m.wparam = x) && m.typeResult.isSome

/-- The message is a pointer-leave for identifier `x`. -/
def leavesId (x : Nat) (m : PtrMsg) : Bool :=
  (m.kind == MsgKind.leave) && decide (GET_POINTERID_WPARAM m.wparam = x)

theorem leavesId_eq_false_of_classifiesId (caps : Caps) (x : Nat) (m : PtrMsg)
    (h : classifiesId caps x m = true) : leavesId x m = false := by
  simp only [classifiesId, Bool.and_eq_true] at h
  obtain ⟨⟨⟨-, hkind⟩, -⟩, -⟩ := h
  cases hk : m.kind
  case leave => simp [classifiedKind, hk] at hkind
  all_goals simp [leavesId, hk]

theorem topLevelStep_cacheMem (caps : Caps) (chan : Bool) (cache : Cache)
    (m : PtrMsg) (x : Nat) :
    cacheMem (topLevelStep caps chan cache m).cache x =
      if classifiesId caps x m then true
      else if leavesId x m then false
      else cacheMem cache x := by
  cases hk : m.kind
  case leave =>
      rw [show (topLevelStep caps chan cache m).cache
            = cacheErase cache (GET_POINTERID_WPARAM m.wparam) by
          simp [topLevelStep, hk, noHandle]]
      rw [cacheMem_erase]
      by_cases hx : x = GET_POINTERID_WPARAM m.wparam
      · simp [classifiesId, leavesId, classifiedKind, hk, hx]
      · have hx' : ¬GET_POINTERID_WPARAM m.wparam = x := fun h => hx h.symm
        simp [classifiesId, leavesId, classifiedKind, hk, hx, hx']
  case other =>
      simp [topLevelStep, hk, noHandle, classifiesId, leavesId, classifiedKind]
  all_goals (
    rw [show (topLevelStep caps chan cache m).cache
          = (HandlePointerMessage caps chan cache m).cache by
        simp [topLevelStep, hk]]
    rw [HandlePointerMessage_cache]
    cases hg : caps.getPointerType
    · simp [classifiesId, leavesId, hg, hk]
    · cases ht : m.typeResult with
      | none => simp [classifiesId, leavesId, hg, hk, ht]
      | some t =>
          rw [if_pos rfl, cacheMem_insert]
          by_cases hx : x = GET_POINTERID_WPARAM m.wparam
          · simp [classifiesId, leavesId, classifiedKind, hg, hk, ht, hx]
          · have hx' : ¬GET_POINTERID_WPARAM m.wparam = x := fun h => hx h.symm
            simp [classifiesId, leavesId, classifiedKind, hg, hk, ht, hx, hx'])

theorem topLevelStep_event (caps : Caps) (chan : Bool) (cache : Cache)
    (m : PtrMsg) :
    (topLevelStep caps chan cache m).event =
      if caps.getPointerType = true ∧ m.kind = MsgKind.down then
        match m.typeResult with
        | some t =>
            some ⟨GET_POINTERID_WPARAM m.wparam, t, penPressure caps t m.penResult⟩
        | none => none
      else none := by
  cases hk : m.kind
  case leave => simp [topLevelStep, hk, noHandle]
  case other => simp [topLevelStep, hk, noHandle]
  all_goals (
    rw [show (topLevelStep caps chan cache m).event
          = (HandlePointerMessage caps chan cache m).event by
        simp [topLevelStep, hk]]
    rw [HandlePointerMessage_event, hk])

theorem topLevelStep_sent (caps : Caps) (chan : Bool) (cache : Cache)
    (m : PtrMsg) :
    (topLevelStep caps chan cache m).sent =
      if caps.getPointerType = true ∧ m.kind = MsgKind.down then
        match m.typeResult with
        | some t =>
            (SendPointerTypeToDart chan (GET_POINTERID_WPARAM m.wparam) t
              (penPressure caps t m.penResult)).1
        | none => none
      else none := by
  cases hk : m.kind
  case leave => simp [topLevelStep, hk, noHandle]
  case other => simp [topLevelStep, hk, noHandle]
  all_goals (
    rw [show (topLevelStep caps chan cache m).sent
          = (HandlePointerMessage caps chan cache m).sent by
        simp [topLevelStep, hk]]
    rw [HandlePointerMessage_sent, hk])

theorem topLevelStep_sent_isSome (caps : Caps) (chan : Bool) (cache : Cache)
    (m : PtrMsg) :
    (topLevelStep caps chan cache m).sent.isSome =
      (caps.getPointerType && chan && (m.kind == MsgKind.down)
        && m.typeResult.isSome) := by
  rw [topLevelStep_sent]
  by_cases h : caps.getPointerType = true ∧ m.kind = MsgKind.down
  · obtain ⟨hg, hk⟩ := h
    rw [if_pos ⟨hg, hk⟩]
    cases ht : m.typeResult with
    | none => simp [hg, hk, ht]
    | some t => cases chan <;> simp [hg, hk, ht, SendPointerTypeToDart]
  · rw [if_neg h]
    rcases not_and_or.mp h with hg | hk
    · simp only [Bool.not_eq_true] at hg
      simp [hg]
    · have : (m.kind == MsgKind.down) = false := by
        simpa using hk
      simp [this]

/-! ### Run-level lemmas -/

/-- Spec-side predicate for the amended cache invariant: some message in
the list classifies `x` successfully and no later message is a leave for
`x`. -/
def liveSpec (caps : Caps) (x : Nat) : List PtrMsg → Bool
  | [] => false
  | m :: ms =>
      (classifiesId caps x m && ms.all (fun m' => !(leavesId x m')))
        || liveSpec caps x ms

theorem runTopLevel_cacheMem (caps : Caps) (chan : Bool) (x : Nat) :
    ∀ (msgs : List PtrMsg) (cache : Cache),
      cacheMem (runTopLevel caps chan cache msgs).cache x =
        (liveSpec caps x msgs ||
          (cacheMem cache x && msgs.all (fun m' => !(leavesId x m')))) := by
  intro msgs
  induction msgs with
  | nil => intro cache; simp [runTopLevel, liveSpec]
  | cons m ms ih =>
      intro cache
      show cacheMem (runTopLevel caps chan (topLevelStep caps chan cache m).cache ms).cache x = _
      rw [ih, topLevelStep_cacheMem]
      by_cases hc : classifiesId caps x m = true
      · have hl := leavesId_eq_false_of_classifiesId caps x m hc
        rw [if_pos hc]
        simp only [liveSpec, List.all_cons, hc, hl]
        generalize liveSpec caps x ms = a
        generalize ms.all (fun m' => !(leavesId x m')) = b
        generalize cacheMem cache x = c
        cases a <;> cases b <;> cases c <;> rfl
      · rw [if_neg hc]
        replace hc : classifiesId caps x m = false := by
          simpa using hc
        by_cases hl : leavesId x m = true
        · rw [if_pos hl]
          simp only [liveSpec, List.all_cons, hc, hl]
          generalize liveSpec caps x ms = a
          generalize ms.all (fun m' => !(leavesId x m')) = b
          generalize cacheMem cache x = c
          cases a <;> cases b <;> cases c <;> rfl
        · replace hl : leavesId x m = false := by
            simpa using hl
          rw [if_neg (by simp [hl])]
          simp only [liveSpec, List.all_cons, hc, hl]
          generalize liveSpec caps x ms = a
          generalize ms.all (fun m' => !(leavesId x m')) = b
          generalize cacheMem cache x = c
          cases a <;> cases b <;> cases c <;> rfl

theorem liveSpec_iff (caps : Caps) (x : Nat) :
    ∀ msgs : List PtrMsg,
      liveSpec caps x msgs = true ↔
        ∃ pre m post, msgs = pre ++ m :: post ∧ classifiesId caps x m = true ∧
          ∀ m' ∈ post, leavesId x m' = false := by
  intro msgs
  induction msgs with
  | nil =>
      constructor
      · intro h; simp [liveSpec] at h
      · rintro ⟨pre, m, post, h, -, -⟩
        exact absurd h.symm (by simp)
  | cons m ms ih =>
      simp only [liveSpec, Bool.or_eq_true, Bool.and_eq_true, List.all_eq_true,
        Bool.not_eq_true', ih]
      constructor
      · rintro (⟨hc, hall⟩ | ⟨pre, m0, post, heq, hc, hl⟩)
        · exact ⟨[], m, ms, rfl, hc, hall⟩
        · exact ⟨m :: pre, m0, post, by rw [heq]; rfl, hc, hl⟩
      · rintro ⟨pre, m0, post, heq, hc, hl⟩
        cases pre with
        | nil =>
            simp only [List.nil_append, List.cons.injEq] at heq
            obtain ⟨rfl, rfl⟩ := heq
            exact Or.inl ⟨hc, hl⟩
        | cons p pre' =>
            simp only [List.cons_append, List.cons.injEq] at heq
            exact Or.inr ⟨pre', m0, post, heq.2, hc, hl⟩

theorem runTopLevel_sentMsgs_ne_nil (caps : Caps) (chan : Bool) :
    ∀ (msgs : List PtrMsg) (cache : Cache),
      (runTopLevel caps chan cache msgs).sentMsgs ≠ [] ↔
        caps.getPointerType = true ∧ chan = true ∧
          ∃ m ∈ msgs, m.kind = MsgKind.down ∧ m.typeResult.isSome = true := by
  intro msgs
  induction msgs with
  | nil => intro cache; simp [runTopLevel]
  | cons m ms ih =>
      intro cache
      show (topLevelStep caps chan cache m).sent.toList
          ++ (runTopLevel caps chan (topLevelStep caps chan cache m).cache ms).sentMsgs ≠ [] ↔ _
      rw [ne_eq, List.append_eq_nil]
      have hstep : ((topLevelStep caps chan cache m).sent.toList = []) =
          ((topLevelStep caps chan cache m).sent.isSome = false) := by
        cases hs : (topLevelStep caps chan cache m).sent <;> simp [hs]
      rw [not_and_or]
      have hih := ih (topLevelStep caps chan cache m).cache
      rw [ne_eq] at hih
      rw [hih]
      constructor
      · rintro (hs | hrest)
        · rw [hstep] at hs
          rw [topLevelStep_sent_isSome] at hs
          simp only [Bool.not_eq_false, Bool.and_eq_true, beq_iff_eq] at hs
          exact ⟨hs.1.1.1, hs.1.1.2, m, List.mem_cons_self m ms, hs.1.2, hs.2⟩
        · obtain ⟨h1, h2, m', hm', h3⟩ := hrest
          exact ⟨h1, h2, m', List.mem_cons_of_mem m hm', h3⟩
      · rintro ⟨h1, h2, m', hm', hk, ht⟩
        rcases List.mem_cons.mp hm' with rfl | hm'
        · refine Or.inl ?_
          rw [hstep, topLevelStep_sent_isSome]
          simp [h1, h2, hk, ht]
        · exact Or.inr ⟨h1, h2, m', hm', hk, ht⟩

theorem topLevelStep_event_none (caps : Caps) (chan : Bool) (cache : Cache)
    (m : PtrMsg) (h : m.kind ≠ MsgKind.down) :
    (topLevelStep caps chan cache m).event = none := by
  rw [topLevelStep_event, if_neg]
  rintro ⟨-, hk⟩
  exact h hk

theorem runTopLevel_events_length (caps : Caps) (chan : Bool) :
    ∀ (msgs : List PtrMsg) (cache : Cache),
      (runTopLevel caps chan cache msgs).events.length ≤
        msgs.countP (fun m => m.kind == MsgKind.down) := by
  intro msgs
  induction msgs with
  | nil => intro cache; simp [runTopLevel]
  | cons m ms ih =>
      intro cache
      show ((topLevelStep caps chan cache m).event.toList
          ++ (runTopLevel caps chan (topLevelStep caps chan cache m).cache ms).events).length ≤ _
      rw [List.length_append, List.countP_cons]
      have hrest := ih (topLevelStep caps chan cache m).cache
      by_cases hk : m.kind = MsgKind.down
      · have h1 : (topLevelStep caps chan cache m).event.toList.length ≤ 1 := by
          cases (topLevelStep caps chan cache m).event <;> simp
        have : (fun m => m.kind == MsgKind.down) m = true := by simp [hk]
        rw [if_pos this]
        omega
      · rw [topLevelStep_event_none caps chan cache m hk]
        have : (fun m => m.kind == MsgKind.down) m = false := by simp [hk]
        rw [if_neg (by simp [this])]
        simpa using hrest

/-! ### Cache-independence helpers -/

theorem topLevelStep_event_cache_irrel (caps : Caps) (chan : Bool)
    (c1 c2 : Cache) (m : PtrMsg) :
    (topLevelStep caps chan c1 m).event = (topLevelStep caps chan c2 m).event := by
  rw [topLevelStep_event, topLevelStep_event]

theorem topLevelStep_sent_cache_irrel (caps : Caps) (chan : Bool)
    (c1 c2 : Cache) (m : PtrMsg) :
    (topLevelStep caps chan c1 m).sent = (topLevelStep caps chan c2 m).sent := by
  rw [topLevelStep_sent, topLevelStep_sent]

theorem runTopLevel_events_cache_irrel (caps : Caps) (chan : Bool) :
    ∀ (msgs : List PtrMsg) (c1 c2 : Cache),
      (runTopLevel caps chan c1 msgs).events = (runTopLevel caps chan c2 msgs).events ∧
      (runTopLevel caps chan c1 msgs).sentMsgs = (runTopLevel caps chan c2 msgs).sentMsgs := by
  intro msgs
  induction msgs with
  | nil => intro c1 c2; constructor <;> rfl
  | cons m ms ih =>
      intro c1 c2
      have hev := topLevelStep_event_cache_irrel caps chan c1 c2 m
      have hse := topLevelStep_sent_cache_irrel caps chan c1 c2 m
      have hrest := ih (topLevelStep caps chan c1 m).cache (topLevelStep caps chan c2 m).cache
      constructor
      · show (topLevelStep caps chan c1 m).event.toList ++ _ = (topLevelStep caps chan c2 m).event.toList ++ _
        rw [hev, hrest.1]
      · show (topLevelStep caps chan c1 m).sent.toList ++ _ = (topLevelStep caps chan c2 m).sent.toList ++ _
        rw [hse, hrest.2]

/-! ### Capability-prober helpers -/

theorem InitializePointerApi_initialized (env : ProbeEnv) (s : ApiState) :
    (InitializePointerApi env s).initialized = (true : Bool) := by
  cases hi : s.initialized
  · cases hu : env.user32 <;> simp [InitializePointerApi, hi, hu]
  · simp [InitializePointerApi, hi]

theorem InitializePointerApi_of_initialized (env : ProbeEnv) (s : ApiState)
    (h : s.initialized = true) : InitializePointerApi env s = s := by
  simp [InitializePointerApi, h]

theorem runProbes_of_initialized (es : List ProbeEnv) :
    ∀ s : ApiState, s.initialized = true → runProbes s es = s := by
  induction es with
  | nil => intro s _; rfl
  | cons e es ih =>
      intro s h
      show runProbes (InitializePointerApi e s) es = s
      rw [InitializePointerApi_of_initialized e s h]
      exact ih s h

/-! ### Pen-pressure helper -/

theorem penPressure_ne_zero (caps : Caps) (t : Nat) (pr : Option Nat)
    (h : penPressure caps t pr ≠ 0) :
    t = PT_PEN ∧ caps.getPointerPenInfo = true ∧ pr.isSome = true := by
  unfold penPressure at h
  by_cases hc : t = PT_PEN ∧ caps.getPointerPenInfo = true
  · cases pr with
    | none => rw [if_pos hc] at h; exact absurd rfl h
    | some p => exact ⟨hc.1, hc.2, rfl⟩
  · rw [if_neg hc] at h
    exact absurd rfl h

/-! ### Claim theorems -/

/-- Claim C1, counterexample to the claim as stated: with the device-type
capability resolved, a pointer-down whose device-type query succeeds,
but with the method channel not yet established (`pointer_channel_`
null), no message is sent to the application channel — so "event produced
iff down, capability resolved, query succeeds" fails without a channel
condition. -/
theorem sent_requires_channel_counterexample :
    (runTopLevel ⟨true, true⟩ false []
        [⟨MsgKind.down, 5, some PT_TOUCH, none⟩]).sentMsgs = [] ∧
    (⟨MsgKind.down, 5, some PT_TOUCH, none⟩ : PtrMsg).kind = MsgKind.down ∧
    (⟨true, true⟩ : Caps).getPointerType = true ∧
    (⟨MsgKind.down, 5, some PT_TOUCH, none⟩ : PtrMsg).typeResult.isSome = true := by
  decide

/-- Claim C1 (amended): for every message sequence, a message is sent to
the application channel if and only if (i) a pointer-down message occurs,
(ii) the device-type capability resolved (`g_GetPointerType` non-null),
(iii) the device-type query succeeds on that message, and (iv) the method
channel is established; in particular, with the capability unresolved no
event is ever produced, for any input sequence. -/
theorem classification_sent_iff_channel (caps : Caps) (chan : Bool)
    (cache : Cache) (msgs : List PtrMsg) :
    (runTopLevel caps chan cache msgs).sentMsgs ≠ [] ↔
      caps.getPointerType = true ∧ chan = true ∧
        ∃ m ∈ msgs, m.kind = MsgKind.down ∧ m.typeResult.isSome = true :=
  runTopLevel_sentMsgs_ne_nil caps chan msgs cache

/-- Claim C2 (code bug): on the subclassed child-view path,
`WM_POINTERLEAVE` is routed into `ProcessPointerMessage` →
`HandlePointerMessage`, which queries the device type and inserts/updates
the cache entry instead of removing it: starting from a cache holding
`5 ↦ PT_PEN`, a leave for pointer 5 whose query returns `PT_TOUCH` leaves
the cache holding `5 ↦ PT_TOUCH` — the entry is classified and retained,
not erased as the claim (and the top-level path) require. -/
theorem subclass_leave_classifies_and_retains_entry :
    (FlutterViewSubclassProc ⟨true, 7, 9⟩ true ⟨true, true⟩ true [(5, PT_PEN)]
        ⟨MsgKind.leave, 5, some PT_TOUCH, none⟩).handle.cache = [(5, PT_TOUCH)] ∧
    cacheMem (FlutterViewSubclassProc ⟨true, 7, 9⟩ true ⟨true, true⟩ true
        [(5, PT_PEN)] ⟨MsgKind.leave, 5, some PT_TOUCH, none⟩).handle.cache 5
      = true := by
  decide

/-- Claim C3, counterexample to the claim as stated: a single
pointer-enter message with a successful device-type query creates a cache
entry, although no down or update message for that identifier was ever
observed — so "entry exists iff a down or update was observed with no
leave since" fails. -/
theorem cache_entry_from_enter_counterexample :
    cacheMem (runTopLevel ⟨true, true⟩ true []
        [⟨MsgKind.enter, 7, some PT_TOUCH, none⟩]).cache 7 = true ∧
    (⟨MsgKind.enter, 7, some PT_TOUCH, none⟩ : PtrMsg).kind ≠ MsgKind.down ∧
    (⟨MsgKind.enter, 7, some PT_TOUCH, none⟩ : PtrMsg).kind ≠ MsgKind.update ∧
    (⟨MsgKind.enter, 7, some PT_TOUCH, none⟩ : PtrMsg).kind ≠ MsgKind.leave := by
  decide

/-- Claim C3 (amended): on the top-level path, starting from the empty
cache, an entry for identifier `x` exists after a message sequence if and
only if some down/up/update/enter message for `x` with the capability
resolved and a successful device-type query has been observed, and no
pointer-leave for `x` has been observed since. -/
theorem cache_mem_iff_live_classification (caps : Caps) (chan : Bool)
    (msgs : List PtrMsg) (x : Nat) :
    cacheMem (runTopLevel caps chan [] msgs).cache x = true ↔
      ∃ pre m post, msgs = pre ++ m :: post ∧ classifiesId caps x m = true ∧
        ∀ m' ∈ post, leavesId x m' = false := by
  rw [runTopLevel_cacheMem caps chan x msgs []]
  have h0 : cacheMem [] x = false := rfl
  rw [h0]
  simp only [Bool.false_and, Bool.or_false]
  exact liveSpec_iff caps x msgs

/-- Claim C4: in every produced ClassificationEvent, a nonzero pressure
implies the resolved type is `PT_PEN`, the pen-metadata capability is
resolved, and the pen-metadata query succeeded (so in every other case
pressure is exactly 0, by contraposition). -/
theorem event_pressure_nonzero_only_for_pen (caps : Caps) (chan : Bool)
    (cache : Cache) (m : PtrMsg) (e : ClassificationEvent)
    (he : (HandlePointerMessage caps chan cache m).event = some e)
    (hnz : e.pressure ≠ 0) :
    e.pointerType = PT_PEN ∧ caps.getPointerPenInfo = true ∧
      m.penResult.isSome = true := by
  rw [HandlePointerMessage_event] at he
  by_cases h : caps.getPointerType = true ∧ m.kind = MsgKind.down
  · rw [if_pos h] at he
    cases ht : m.typeResult with
    | none => rw [ht] at he; exact absurd he (by simp)
    | some t =>
        rw [ht] at he
        have he' : (⟨GET_POINTERID_WPARAM m.wparam, t,
            penPressure caps t m.penResult⟩ : ClassificationEvent) = e := by
          injection he
        subst he'
        have hp := penPressure_ne_zero caps t m.penResult hnz
        exact ⟨hp.1, hp.2.1, hp.2.2⟩
  · rw [if_neg h] at he
    exact absurd he (by simp)

/-- Claim C4, witness: a concrete pen-down with pressure 600 instantiates
the theorem's hypotheses. -/
theorem event_pressure_nonzero_only_for_pen_witness :
    (⟨5, 3, 600⟩ : ClassificationEvent).pointerType = PT_PEN ∧
      (⟨true, true⟩ : Caps).getPointerPenInfo = true ∧
      (⟨MsgKind.down, 5, some PT_PEN, some 600⟩ : PtrMsg).penResult.isSome = true :=
  event_pressure_nonzero_only_for_pen ⟨true, true⟩ true []
    ⟨MsgKind.down, 5, some PT_PEN, some 600⟩ ⟨5, 3, 600⟩ (by decide) (by decide)

/-- Claim C5: over any message sequence, at most one ClassificationEvent
is produced per pointer-down message (the event count is bounded by the
number of downs), and any message that is not a pointer-down produces no
event. -/
theorem at_most_one_event_per_down (caps : Caps) (chan : Bool) (cache : Cache)
    (msgs : List PtrMsg) :
    (runTopLevel caps chan cache msgs).events.length ≤
        msgs.countP (fun m => m.kind == MsgKind.down) ∧
    ∀ (cache2 : Cache) (m : PtrMsg),
      (topLevelStep caps chan cache2 m).event = none ∨ m.kind = MsgKind.down := by
  refine ⟨runTopLevel_events_length caps chan msgs cache, ?_⟩
  intro cache2 m
  by_cases hk : m.kind = MsgKind.down
  · exact Or.inr hk
  · exact Or.inl (topLevelStep_event_none caps chan cache2 m hk)

/-- Claim C6: classification output is independent of the cache contents:
two runs whose states differ only in the cache produce the same
classification calls and the same channel messages, per message and over
whole sequences (so a down reusing an identifier after a leave cannot be
influenced by stale cached data). -/
theorem events_independent_of_cache (caps : Caps) (chan : Bool) (m : PtrMsg)
    (c1 c2 : Cache) (msgs : List PtrMsg) :
    ((topLevelStep caps chan c1 m).event = (topLevelStep caps chan c2 m).event ∧
     (topLevelStep caps chan c1 m).sent = (topLevelStep caps chan c2 m).sent) ∧
    ((runTopLevel caps chan c1 msgs).events
        = (runTopLevel caps chan c2 msgs).events ∧
     (runTopLevel caps chan c1 msgs).sentMsgs
        = (runTopLevel caps chan c2 msgs).sentMsgs) :=
  ⟨⟨topLevelStep_event_cache_irrel caps chan c1 c2 m,
    topLevelStep_sent_cache_irrel caps chan c1 c2 m⟩,
   runTopLevel_events_cache_irrel caps chan msgs c1 c2⟩

/-- Claim C7: capability resolution is idempotent and attempted exactly
once per process lifetime: a second `InitializePointerApi` call (under any
probe environment) leaves the state unchanged, and any sequence of calls
from the initial state equals just the first call — a failed first
resolution is permanent. -/
theorem capability_resolution_once (env1 env2 : ProbeEnv) (s : ApiState)
    (es : List ProbeEnv) :
    InitializePointerApi env2 (InitializePointerApi env1 s) =
        InitializePointerApi env1 s ∧
    runProbes initialApiState (env1 :: es) =
        InitializePointerApi env1 initialApiState := by
  refine ⟨InitializePointerApi_of_initialized env2 _
      (InitializePointerApi_initialized env1 s), ?_⟩
  show runProbes (InitializePointerApi env1 initialApiState) es = _
  exact runProbes_of_initialized es _
    (InitializePointerApi_initialized env1 initialApiState)

/-- Claim C8: when the device-type capability is resolved but the
device-type query fails on a message, the failure is logged, no
classification call and no channel message happen, and the cache is left
exactly unchanged. -/
theorem type_query_failure_isolated (caps : Caps) (chan : Bool) (cache : Cache)
    (m : PtrMsg) (hcap : caps.getPointerType = true)
    (hfail : m.typeResult = none) :
    (HandlePointerMessage caps chan cache m).logs =
        [LogEvent.typeQueryFailed (GET_POINTERID_WPARAM m.wparam)] ∧
    (HandlePointerMessage caps chan cache m).event = none ∧
    (HandlePointerMessage caps chan cache m).sent = none ∧
    (HandlePointerMessage caps chan cache m).cache = cache := by
  simp [HandlePointerMessage, hcap, hfail]

/-- Claim C8, witness: a concrete failing query on a pointer-down leaves a
one-entry cache untouched and forwards nothing. -/
theorem type_query_failure_isolated_witness :
    (HandlePointerMessage ⟨true, false⟩ true [(2, 3)]
        ⟨MsgKind.down, 5, none, none⟩).logs =
        [LogEvent.typeQueryFailed (GET_POINTERID_WPARAM 5)] ∧
    (HandlePointerMessage ⟨true, false⟩ true [(2, 3)]
        ⟨MsgKind.down, 5, none, none⟩).event = none ∧
    (HandlePointerMessage ⟨true, false⟩ true [(2, 3)]
        ⟨MsgKind.down, 5, none, none⟩).sent = none ∧
    (HandlePointerMessage ⟨true, false⟩ true [(2, 3)]
        ⟨MsgKind.down, 5, none, none⟩).cache = [(2, 3)] :=
  type_query_failure_isolated ⟨true, false⟩ true [(2, 3)]
    ⟨MsgKind.down, 5, none, none⟩ (by decide) (by decide)

/-- Claim C9: when the channel is established, `SendPointerTypeToDart`
invokes exactly one channel message, with method name
`onPointerTypeDetected` and a payload map holding exactly the keys
`pointerId`, `pointerType` and `pressure` (integer values); when the
channel is not established, the call sends nothing and only logs. -/
theorem sendPointerType_message_shape (pid ptype pressure : Nat) :
    SendPointerTypeToDart true pid ptype pressure =
      (some { method := "onPointerTypeDetected",
              args := [("pointerId", toInt32 pid), ("pointerType", toInt32 ptype),
                       ("pressure", toInt32 pressure)] },
       [LogEvent.sendInfo pid ptype pressure]) ∧
    SendPointerTypeToDart false pid ptype pressure =
      (none, [LogEvent.channelNull]) := by
  exact ⟨rfl, rfl⟩

/-- Claim C10: on both interception paths, after local handling the
message is unconditionally passed on to the next handler in the chain and
the returned result is exactly the chain's result, for every message and
every classification outcome: the subclass procedure always calls the
saved original procedure (or `DefWindowProc` when none was saved), and the
top-level handler always offers the message to the hosted runtime when the
controller exists, falling through to base handling when it declines. -/
theorem messages_always_passed_through (wchain : WndChain) (tchain : TopChain)
    (wp : Bool) (caps : Caps) (chan : Bool) (cache : Cache) (m : PtrMsg) :
    ((FlutterViewSubclassProc wchain wp caps chan cache m).calledOriginal
        = wchain.originalProcPresent ∧
     (FlutterViewSubclassProc wchain wp caps chan cache m).calledDefault
        = !wchain.originalProcPresent ∧
     (FlutterViewSubclassProc wchain wp caps chan cache m).result =
        (if wchain.originalProcPresent then wchain.originalResult
         else wchain.defaultResult)) ∧
    ((MessageHandler tchain caps chan cache m).calledFlutter
        = tchain.controllerPresent ∧
     (MessageHandler tchain caps chan cache m).calledBase
        = (!tchain.controllerPresent || tchain.flutterResult.isNone) ∧
     (MessageHandler tchain caps chan cache m).result =
        (if tchain.controllerPresent then tchain.flutterResult.getD tchain.baseResult
         else tchain.baseResult)) := by
  constructor
  · cases hop : wchain.originalProcPresent <;>
      simp [FlutterViewSubclassProc, hop]
  · cases hcp : tchain.controllerPresent
    · simp [MessageHandler, hcp]
    · cases hfr : tchain.flutterResult <;>
        simp [MessageHandler, hcp, hfr]

end Winote
